import Mathlib

/-!
# Verification of the go-case cross-service event relay

Shallow embedding of the messaging core of the repository:
* the Node API (`part_001`): `publishItemEvent`, `initializeServices`,
  `app.listen`, the mutating item handlers, and `POST /api/notify`;
* the Go service (`main.go`): `main`'s startup sequence, the consumer
  loops (`startKafkaConsumer` / `startRabbitConsumer`), and the
  `POST /api/events` handler (`sendEvent`).

JSON values are embedded as an inductive `Json` type; the byte level of
`JSON.stringify` / `json.Unmarshal` is abstracted to the `Wire` type: a
`Wire.json j` is a byte sequence that parses as the JSON value `j`, and
`Wire.garbage s` is a byte sequence that is not valid JSON.  Broker and
store availability are explicit boolean world parameters; an emission is
recorded in an explicit effect list only when the corresponding adapter
accepts it.
-/

/-- JSON values (the wire-level data model shared by both services).
Numbers are embedded as `Int`; no claim computes with numeric payloads. -/
inductive Json where
  | null : Json
  | bool (b : Bool) : Json
  | num (n : Int) : Json
  | str (s : String) : Json
  | arr (elems : List Json) : Json
  | obj (fields : List (String × Json)) : Json

/-- A byte sequence on a broker channel: either it parses as a JSON value
or it is not valid JSON at all. -/
inductive Wire where
  | json (j : Json) : Wire
  | garbage (s : String) : Wire

/-- Whether a wire byte sequence is valid JSON text. -/
def Wire.parses : Wire → Bool
  | .json _ => true
  | .garbage _ => false

/-- Assoc lookup over a JSON object's field list (encoded objects in this
development have pairwise-distinct keys, so first- and last-wins agree). -/
def jsonLookup (fields : List (String × Json)) (key : String) : Option Json :=
  match fields with
  | [] => none
  | (k, v) :: rest => if k == key then some v else jsonLookup rest key

/-- The Go struct `KafkaMessage{Event string; Data interface{}; Timestamp string}`,
which is also the shape the Node publisher serializes to `item-events`. -/
structure KafkaMessage where
  event : String
  data : Json
  timestamp : String

/-- The Go struct `RabbitMessage{Action string; Item interface{} (omitempty);
ItemID string (omitempty); Timestamp string}`: the QueueAction shape. -/
structure RabbitMessage where
  action : String
  item : Option Json
  itemId : Option String
  timestamp : String

/-- The Go struct `NotificationMessage{Message, Recipient, Timestamp string}`. -/
structure NotificationMessage where
  message : String
  recipient : String
  timestamp : String

/-- The payload argument `data` of `publishItemEvent`: the saved mongoose
document for create/update, or the `{ id: req.params.id }` wrapper the
DELETE handler passes. -/
inductive Payload where
  | record (doc : Json) (id : String) : Payload
  | idOnly (id : String) : Payload

/-- `data` serialized into the Kafka message (`JSON.stringify` of the value). -/
def Payload.toJson : Payload → Json
  | .record doc _ => doc
  | .idOnly i => .obj [("id", .str i)]

/-- The JS field access `data.id` at the sites `publishItemEvent` is called
from (a mongoose document exposes the `id` virtual; the DELETE wrapper has
a literal `id`). -/
def Payload.jsId : Payload → String
  | .record _ i => i
  | .idOnly i => i

/-- The three event names the Node handlers pass to `publishItemEvent`. -/
inductive ItemEventName where
  | created
  | updated
  | deleted
deriving DecidableEq

/-- The event string literal at each call site. -/
def ItemEventName.str : ItemEventName → String
  | .created => "item_created"
  | .updated => "item_updated"
  | .deleted => "item_deleted"

/-- Availability of the adapters as seen by one `publishItemEvent` call:
whether `producer.send` succeeds, whether `rabbitChannel` is non-null,
and whether `rabbitChannel.sendToQueue` succeeds. -/
structure World where
  kafkaOk : Bool
  rabbitChannel : Bool
  rabbitOk : Bool

/-- Messages that actually reached each broker during one publisher call. -/
structure Emissions where
  kafka : List KafkaMessage
  rabbit : List RabbitMessage

def Emissions.none : Emissions := ⟨[], []⟩

/-- The Kafka message built in `publishItemEvent`:
`{ event, data, timestamp }`. -/
def mkKafkaMessage (event : ItemEventName) (data : Payload) (ts : String) :
    KafkaMessage :=
  { event := event.str, data := data.toJson, timestamp := ts }

/-- Helper for `jsReplaceFirst`: replace the first occurrence of `pat` in
the character list, scanning left to right. -/
def jsReplaceFirstAux (pat repl : List Char) : List Char → List Char
  | [] => if pat.isPrefixOf ([] : List Char) then repl else []
  | c :: rest =>
      if pat.isPrefixOf (c :: rest) then repl ++ (c :: rest).drop pat.length
      else c :: jsReplaceFirstAux pat repl rest

/-- JavaScript `s.replace(pat, repl)` with a string pattern: replaces only
the first occurrence. -/
def jsReplaceFirst (s pat repl : String) : String :=
  ⟨jsReplaceFirstAux pat.data repl.data s.data⟩

/-- The RabbitMQ message built in `publishItemEvent`:
`action = event.replace('item_', '')`, and the conditional spread
`...(event === 'item_deleted' ? { itemId: data.id } : { item: data })`. -/
def mkRabbitMessage (event : ItemEventName) (data : Payload) (ts : String) :
    RabbitMessage :=
  { action := jsReplaceFirst event.str "item_" ""
    item := if event.str == "item_deleted" then Option.none else some data.toJson
    itemId := if event.str == "item_deleted" then some data.jsId else Option.none
    timestamp := ts }

/-- The body of the single `try` block of `publishItemEvent`: the Kafka send,
then (if a channel exists) the RabbitMQ send.  Returns the emissions that
reached a broker before any throw, and the thrown error if any.  A throw at
the Kafka send skips the RabbitMQ send; a throw at the RabbitMQ send leaves
the already-performed Kafka emission in place. -/
def publishAttempt (event : ItemEventName) (data : Payload) (w : World)
    (ts : String) : Emissions × Option String :=
  if !w.kafkaOk then
    (Emissions.none, some "kafka send failed")
  else
    let afterKafka : Emissions := ⟨[mkKafkaMessage event data ts], []⟩
    if w.rabbitChannel then
      if !w.rabbitOk then
        (afterKafka, some "rabbit send failed")
      else
        ({ afterKafka with rabbit := [mkRabbitMessage event data ts] },
          Option.none)
    else
      (afterKafka, Option.none)

/-- `publishItemEvent(event, data)`: runs the try block and catches any
error, logging it ("Don't throw error to avoid breaking the main
operation").  The returned `Bool` records whether an error was logged; the
function has no failure channel in its type, mirroring the catch-all. -/
def publishItemEvent (event : ItemEventName) (data : Payload) (w : World)
    (ts : String) : Emissions × Bool :=
  let (em, err) := publishAttempt event data w ts
  (em, err.isSome)

/-! ## The record store and the mutating HTTP handlers (Node API) -/

/-- A stored item, following the mongoose `itemSchema` (name, description,
price, category, createdAt, updatedAt) plus the document id.  Dates are
embedded as their ISO strings, the numeric price as `Int`. -/
structure Item where
  id : String
  name : String
  description : String
  price : Int
  category : String
  createdAt : String
  updatedAt : String

/-- A mongoose document serialized into a message payload. -/
def Item.toJson (it : Item) : Json :=
  .obj [("_id", .str it.id), ("name", .str it.name),
        ("description", .str it.description), ("price", .num it.price),
        ("category", .str it.category), ("createdAt", .str it.createdAt),
        ("updatedAt", .str it.updatedAt)]

/-- A `PUT /api/items/:id` request body: any subset of the schema fields
may be supplied (mongoose strict mode drops unknown fields). -/
structure ItemPatch where
  name : Option String
  description : Option String
  price : Option Int
  category : Option String
  createdAt : Option String
  updatedAt : Option String

/-- `findByIdAndUpdate(id, { ...req.body, updatedAt: new Date() }, ...)`
applied to the document `old`: a `$set` of every supplied body field, with
`updatedAt` always set to the request time `now` (the spread puts
`updatedAt: new Date()` after the body fields, so a body-supplied
`updatedAt` is overridden). -/
def applyUpdate (old : Item) (p : ItemPatch) (now : String) : Item :=
  { id := old.id
    name := p.name.getD old.name
    description := p.description.getD old.description
    price := p.price.getD old.price
    category := p.category.getD old.category
    createdAt := p.createdAt.getD old.createdAt
    updatedAt := now }

/-- An Express JSON response: status code plus the body fields the handlers
use (`success`, `data`, `error`, `message`). -/
structure HttpResponse where
  status : Nat
  success : Bool
  data : Option Json := Option.none
  error : Option String := Option.none
  message : Option String := Option.none

/-- `POST /api/items`: `item.save()` either throws (validation/store error,
caught as a 400) or returns the saved document, after which the event is
published and a 201 returned.  `save` is the record-store outcome. -/
def postItems (save : Except String Item) (w : World) (ts : String) :
    HttpResponse × Emissions :=
  match save with
  | .error msg =>
      ({ status := 400, success := false, error := some msg }, Emissions.none)
  | .ok saved =>
      let (em, _) := publishItemEvent .created (.record saved.toJson saved.id) w ts
      ({ status := 201, success := true, data := some saved.toJson }, em)

/-- `PUT /api/items/:id`: `findByIdAndUpdate` either throws (`storeErr`,
caught as a 400), returns null (404), or returns the updated document
(`applyUpdate` of the pre-image), after which the event is published and a
200 returned with the updated document. -/
def putItem (storeErr : Option String) (pre : Option Item) (p : ItemPatch)
    (now ts : String) (w : World) : HttpResponse × Emissions :=
  match storeErr with
  | some msg =>
      ({ status := 400, success := false, error := some msg }, Emissions.none)
  | Option.none =>
      match pre with
      | Option.none =>
          ({ status := 404, success := false, error := some "Item not found" },
            Emissions.none)
      | some old =>
          let updated := applyUpdate old p now
          let (em, _) :=
            publishItemEvent .updated (.record updated.toJson updated.id) w ts
          ({ status := 200, success := true, data := some updated.toJson }, em)

/-- `DELETE /api/items/:id`: `findByIdAndDelete` either throws (`storeErr`,
caught as a 500), returns null (404), or returns the removed document,
after which the event is published with `{ id: req.params.id }` and a 200
returned. -/
def deleteItem (storeErr : Option String) (found : Option Item)
    (reqId : String) (w : World) (ts : String) : HttpResponse × Emissions :=
  match storeErr with
  | some msg =>
      ({ status := 500, success := false, error := some msg }, Emissions.none)
  | Option.none =>
      match found with
      | Option.none =>
          ({ status := 404, success := false, error := some "Item not found" },
            Emissions.none)
      | some _ =>
          let (em, _) := publishItemEvent .deleted (.idOnly reqId) w ts
          ({ status := 200, success := true,
             message := some "Item deleted successfully" }, em)

/-- `POST /api/notify`: with a null `rabbitChannel` responds 500
"RabbitMQ not connected"; with a channel, `sendToQueue` on
`notifications_queue` either throws (caught as a 500 with the error
message) or enqueues the notification and a success response is sent. -/
def notifyHandler (channel : Bool) (send : Except String Unit)
    (message recipient ts : String) : HttpResponse × List NotificationMessage :=
  if channel then
    match send with
    | .error msg =>
        ({ status := 500, success := false, error := some msg }, [])
    | .ok _ =>
        ({ status := 200, success := true,
           message := some "Notification sent successfully" },
          [⟨message, recipient, ts⟩])
  else
    ({ status := 500, success := false, error := some "RabbitMQ not connected" },
      [])

/-! ## Go-side decoding (`json.Unmarshal`) and the consumer loops -/

/-- `json.Unmarshal` of one object field into a Go `string` struct field:
a missing field or JSON `null` leaves the zero value `""`; a JSON string
fills it; any other JSON type is an unmarshal type error. -/
def goStringField (fields : List (String × Json)) (key : String) :
    Except String String :=
  match jsonLookup fields key with
  | Option.none => .ok ""
  | some (.str s) => .ok s
  | some .null => .ok ""
  | some _ => .error "cannot unmarshal field into string"

/-- `json.Unmarshal` of one object field into a Go `interface{}` field:
any JSON value is accepted; missing leaves `nil` (embedded as `.null`). -/
def goAnyField (fields : List (String × Json)) (key : String) : Json :=
  (jsonLookup fields key).getD .null

/-- `json.Unmarshal` of one object field into an optional payload slot
(`Item interface{}` / `ItemID string` with `omitempty`): missing or `null`
is the absent zero value; otherwise the value must match the field type. -/
def goOptStringField (fields : List (String × Json)) (key : String) :
    Except String (Option String) :=
  match jsonLookup fields key with
  | Option.none => .ok Option.none
  | some .null => .ok Option.none
  | some (.str s) => .ok (some s)
  | some _ => .error "cannot unmarshal field into string"

/-- `json.Unmarshal(message.Value, &kafkaMsg)` into
`KafkaMessage{Event string; Data interface{}; Timestamp string}`:
fails on invalid JSON and on any non-object other than `null` (which
leaves all zero values). -/
def bindKafka : Wire → Except String KafkaMessage
  | .garbage _ => .error "invalid character"
  | .json .null => .ok ⟨"", .null, ""⟩
  | .json (.obj fs) => do
      let ev ← goStringField fs "event"
      let ts ← goStringField fs "timestamp"
      .ok ⟨ev, goAnyField fs "data", ts⟩
  | .json _ => .error "cannot unmarshal into KafkaMessage"

/-- `json.Unmarshal(msg.Body, &rabbitMsg)` into `RabbitMessage`. -/
def bindRabbit : Wire → Except String RabbitMessage
  | .garbage _ => .error "invalid character"
  | .json .null => .ok ⟨"", Option.none, Option.none, ""⟩
  | .json (.obj fs) => do
      let ac ← goStringField fs "action"
      let iid ← goOptStringField fs "itemId"
      let ts ← goStringField fs "timestamp"
      let it := match jsonLookup fs "item" with
        | Option.none => Option.none
        | some .null => Option.none
        | some j => some j
      .ok ⟨ac, it, iid, ts⟩
  | .json _ => .error "cannot unmarshal into RabbitMessage"

/-- `json.Unmarshal(msg.Body, &notifyMsg)` into `NotificationMessage`. -/
def bindNotify : Wire → Except String NotificationMessage
  | .garbage _ => .error "invalid character"
  | .json .null => .ok ⟨"", "", ""⟩
  | .json (.obj fs) => do
      let m ← goStringField fs "message"
      let r ← goStringField fs "recipient"
      let ts ← goStringField fs "timestamp"
      .ok ⟨m, r, ts⟩
  | .json _ => .error "cannot unmarshal into NotificationMessage"

/-- One Go consumer loop over a sequence of inbound wire messages (the
bodies of `startKafkaConsumer` and both `startRabbitConsumer` loops share
this shape): each message is decoded; a decode failure is logged and
`continue`s; a success is dispatched to the channel's handler.  Returns
the dispatched messages in order and the number skipped; the loop never
terminates early. -/
def consumeLoop {α : Type} (dec : Wire → Except String α) :
    List Wire → List α × Nat
  | [] => ([], 0)
  | w :: rest =>
      match dec w with
      | .error _ => ((consumeLoop dec rest).1, (consumeLoop dec rest).2 + 1)
      | .ok a => (a :: (consumeLoop dec rest).1, (consumeLoop dec rest).2)

/-- The wire encoding `publishItemEvent` sends to the `item-events` topic:
`JSON.stringify({ event, data, timestamp })`. -/
def encodeKafkaWire (m : KafkaMessage) : Wire :=
  .json (.obj [("event", .str m.event), ("data", m.data),
               ("timestamp", .str m.timestamp)])

/-! ## Startup sequences -/

/-- Availability of the Go service's external dependencies at startup.
`connectKafka` in the source only constructs a reader and a writer and
performs no network operation, so it has no failure flag. -/
structure GoWorld where
  mongoOk : Bool
  rabbitOk : Bool

/-- Go `connectMongoDB`: connect + ping, or an error. -/
def connectMongoDB (ok : Bool) : Except String Unit :=
  if ok then .ok () else .error "failed to connect to MongoDB"

/-- Go `connectKafka`: builds `kafka.NewReader` / `kafka.Writer` and always
returns nil — it cannot fail. -/
def connectKafka : Except String Unit := .ok ()

/-- Go `connectRabbitMQ`: dial + channel + queue declarations, or an error. -/
def connectRabbitMQGo (ok : Bool) : Except String Unit :=
  if ok then .ok () else .error "failed to connect to RabbitMQ"

/-- Outcome of the Go `main` startup sequence: `log.Fatalf` at a named
connect step, or the serving state (consumers started, HTTP listening). -/
inductive GoStart where
  | fatal (step : String)
  | serving
deriving DecidableEq

/-- Go `main`: connect MongoDB, Kafka, RabbitMQ in order, each failure
fatal via `log.Fatalf`; then start consumers and the HTTP server.  There
is no retry: each connect is attempted exactly once. -/
def goMain (w : GoWorld) : GoStart :=
  match connectMongoDB w.mongoOk with
  | .error _ => .fatal "MongoDB"
  | .ok _ =>
    match connectKafka with
    | .error _ => .fatal "Kafka"
    | .ok _ =>
      match connectRabbitMQGo w.rabbitOk with
      | .error _ => .fatal "RabbitMQ"
      | .ok _ => .serving

/-- Availability of the Node API's broker dependencies at startup
(MongoDB connect errors are reported through an event handler and only
logged, so they do not appear in the control flow at all). -/
structure NodeWorld where
  producerOk : Bool
  consumerOk : Bool
  rabbitOk : Bool

/-- Result of the Node `initializeServices` call. -/
structure NodeInit where
  producerConnected : Bool
  consumerRunning : Bool
  rabbitChannel : Bool
  errorLogged : Bool

/-- Node `connectRabbitMQ`: catches its own connect error and logs it, so
it never throws into `initializeServices`; on success the channel is set. -/
def connectRabbitMQNode (ok : Bool) : Bool × Bool :=
  if ok then (true, false) else (false, true)

/-- Node `initializeServices`: one try block connecting the Kafka producer,
then the Kafka consumer, then RabbitMQ; any throw is caught and logged, and
the function returns normally. -/
def initializeServices (w : NodeWorld) : NodeInit :=
  if !w.producerOk then
    ⟨false, false, false, true⟩
  else if !w.consumerOk then
    ⟨true, false, false, true⟩
  else
    let (ch, rlog) := connectRabbitMQNode w.rabbitOk
    ⟨true, true, ch, rlog⟩

/-- State of the Node process after startup. -/
structure NodeState where
  serving : Bool
  producerConnected : Bool
  consumerRunning : Bool
  rabbitChannel : Bool
  initErrorLogged : Bool

/-- Node startup: `app.listen(PORT, async () => { ... await
initializeServices(); })` — the HTTP server is listening (serving) before
`initializeServices` runs, and `initializeServices` swallows every connect
failure, so the process is serving regardless of the connect outcomes. -/
def nodeStart (w : NodeWorld) : NodeState :=
  let init := initializeServices w
  { serving := true
    producerConnected := init.producerConnected
    consumerRunning := init.consumerRunning
    rabbitChannel := init.rabbitChannel
    initErrorLogged := init.errorLogged }

/-! ## `POST /api/events` on the Go service -/

/-- Messages the Go service emitted (`go-events` topic / `go_events_queue`). -/
structure GoEmissions where
  kafka : List Json
  rabbit : List Json

/-- `c.ShouldBindJSON(&requestBody)` with `requestBody :
map[string]interface{}`: invalid JSON fails; a JSON object binds; JSON
`null` binds (leaving the nil map); any other JSON value is a type error. -/
def bindJsonMap : Wire → Except String Json
  | .garbage _ => .error "invalid JSON"
  | .json (.obj fs) => .ok (.obj fs)
  | .json .null => .ok .null
  | .json _ => .error "cannot unmarshal into map"

/-- Go `sendEvent` (`POST /api/events`): bind failure is a 400; otherwise
the event envelope is written to Kafka and published to RabbitMQ with both
return values discarded, and the response is 200 `success:true` — the
emission outcomes (`kafkaOk`, `rabbitOk`) never reach the response. -/
def sendEvent (body : Wire) (kafkaOk rabbitOk : Bool) (ts : String) :
    HttpResponse × GoEmissions :=
  match bindJsonMap body with
  | .error _ =>
      ({ status := 400, success := false, error := some "Invalid request body" },
        ⟨[], []⟩)
  | .ok bound =>
      let event : Json :=
        .obj [("event", .str "custom_event"), ("data", bound),
              ("timestamp", .str ts), ("source", .str "go-service")]
      ({ status := 200, success := true,
         message := some "Event sent successfully" },
        ⟨if kafkaOk then [event] else [], if rabbitOk then [event] else []⟩)

/-! ## Helper lemmas -/

/-- On a run of messages that all decode, the loop dispatches every message
and skips none. -/
theorem consumeLoop_all_ok {α : Type} (dec : Wire → Except String α) :
    ∀ ws : List Wire, (∀ w ∈ ws, (dec w).isOk = true) →
      (consumeLoop dec ws).1.length = ws.length ∧ (consumeLoop dec ws).2 = 0 := by
  intro ws
  induction ws with
  | nil => intro _; exact ⟨rfl, rfl⟩
  | cons w rest ih =>
      intro h
      have hw : (dec w).isOk = true := h w (List.mem_cons_self w rest)
      obtain ⟨ih1, ih2⟩ := ih (fun x hx => h x (List.mem_cons_of_mem _ hx))
      cases hdec : dec w with
      | error e => rw [hdec] at hw; simp [Except.isOk, Except.toBool] at hw
      | ok a =>
          simp only [consumeLoop, hdec]
          exact ⟨by simp [ih1], ih2⟩

/-- Splitting lemma: one undecodable message in a run of decodable ones is
skipped, and the dispatches are those of the surrounding runs in order. -/
theorem consumeLoop_skip_one {α : Type} (dec : Wire → Except String α)
    (bad : Wire) (hb : (dec bad).isOk = false) (ws2 : List Wire)
    (h2 : ∀ w ∈ ws2, (dec w).isOk = true) :
    ∀ ws1 : List Wire, (∀ w ∈ ws1, (dec w).isOk = true) →
      (consumeLoop dec (ws1 ++ bad :: ws2)).1
          = (consumeLoop dec ws1).1 ++ (consumeLoop dec ws2).1 ∧
      (consumeLoop dec (ws1 ++ bad :: ws2)).2 = 1 := by
  intro ws1
  induction ws1 with
  | nil =>
      intro _
      cases hdec : dec bad with
      | ok a => rw [hdec] at hb; simp [Except.isOk, Except.toBool] at hb
      | error e =>
          obtain ⟨_, h0⟩ := consumeLoop_all_ok dec ws2 h2
          simp only [List.nil_append, consumeLoop, hdec]
          refine ⟨?_, ?_⟩ <;> simp [h0]
  | cons w rest ih =>
      intro h1
      have hw : (dec w).isOk = true := h1 w (List.mem_cons_self w rest)
      obtain ⟨ih1, ih2⟩ := ih (fun x hx => h1 x (List.mem_cons_of_mem _ hx))
      cases hdec : dec w with
      | error e => rw [hdec] at hw; simp [Except.isOk, Except.toBool] at hw
      | ok a =>
          simp only [List.cons_append, consumeLoop, hdec]
          exact ⟨by simp [ih1], ih2⟩

/-! ## Claim theorems -/

/-- C1, counterexample: with the log-stream send failing and a healthy,
connected queue channel (`World` `⟨false, true, true⟩`), the claim says the
queue emission still occurs; in `publishItemEvent` both sends sit in one
`try` block, so the Kafka throw skips the RabbitMQ send and neither broker
receives a message. -/
theorem publish_log_failure_skips_queue_cex :
    (publishItemEvent .created (.record (.obj []) "a") ⟨false, true, true⟩
        "t").1.kafka = [] ∧
    (publishItemEvent .created (.record (.obj []) "a") ⟨false, true, true⟩
        "t").1.rabbit = [] ∧
    (publishItemEvent .created (.record (.obj []) "a") ⟨false, true, true⟩
        "t").2 = true :=
  ⟨rfl, rfl, rfl⟩

/-- C1, amended: the isolation is one-directional.  If the queue emission
fails, the log emission has already succeeded and is not rolled back (the
Kafka message is emitted whenever the Kafka send succeeds, whatever the
queue outcome, and the failure is only logged); but if the log emission
fails, the queue emission is skipped — both sends share one error scope. -/
theorem publish_isolation_one_directional (e : ItemEventName) (d : Payload)
    (ts : String) :
    (∀ ch rok, (publishItemEvent e d ⟨true, ch, rok⟩ ts).1.kafka
        = [mkKafkaMessage e d ts]) ∧
    (publishItemEvent e d ⟨true, true, false⟩ ts).1.rabbit = [] ∧
    (publishItemEvent e d ⟨true, true, false⟩ ts).2 = true ∧
    (∀ ch rok, publishItemEvent e d ⟨false, ch, rok⟩ ts
        = (Emissions.none, true)) := by
  refine ⟨fun ch rok => ?_, rfl, rfl, fun ch rok => rfl⟩
  cases ch <;> cases rok <;> rfl

/-- C2: no emission error reaches the HTTP caller of a mutation — for each
mutating handler the HTTP response is a function of the record-store
outcome alone, identical across any two adapter worlds (and
`publishItemEvent` has no failure channel in its type: the catch-all
converts every emission error into a log entry). -/
theorem mutation_response_broker_independent (save : Except String Item)
    (storeErr : Option String) (pre found : Option Item) (p : ItemPatch)
    (reqId now ts : String) (w w' : World) :
    (postItems save w ts).1 = (postItems save w' ts).1 ∧
    (putItem storeErr pre p now ts w).1 = (putItem storeErr pre p now ts w').1 ∧
    (deleteItem storeErr found reqId w ts).1
        = (deleteItem storeErr found reqId w' ts).1 := by
  refine ⟨?_, ?_, ?_⟩
  · cases save <;> rfl
  · cases storeErr with
    | some msg => rfl
    | none => cases pre <;> rfl
  · cases storeErr with
    | some msg => rfl
    | none => cases found <;> rfl

/-- C3: the QueueAction derived from a DomainEvent satisfies the structural
invariant — a `deleted` event yields `itemId` set (to `data.id`) and no
`item`; `created`/`updated` yield `item` set (to the record) and no
`itemId`. -/
theorem queue_action_item_itemId_split (e : ItemEventName) (d : Payload)
    (ts : String) :
    (e = .deleted →
      (mkRabbitMessage e d ts).itemId = some d.jsId ∧
      (mkRabbitMessage e d ts).item = Option.none ∧
      (mkRabbitMessage e d ts).action = "deleted") ∧
    (e = .created ∨ e = .updated →
      (mkRabbitMessage e d ts).item = some d.toJson ∧
      (mkRabbitMessage e d ts).itemId = Option.none) := by
  constructor
  · rintro rfl
    exact ⟨rfl, rfl,
      (by decide : jsReplaceFirst "item_deleted" "item_" "" = "deleted")⟩
  · rintro (rfl | rfl) <;> exact ⟨rfl, rfl⟩

/-- Witness for C3 at concrete inputs: a deleted event for id "5" and a
created event for an empty record. -/
theorem queue_action_item_itemId_split_witness :
    ((mkRabbitMessage .deleted (.idOnly "5") "t").itemId = some "5" ∧
      (mkRabbitMessage .deleted (.idOnly "5") "t").item = Option.none ∧
      (mkRabbitMessage .deleted (.idOnly "5") "t").action = "deleted") ∧
    ((mkRabbitMessage .created (.record (.obj []) "5") "t").item
        = some (.obj []) ∧
      (mkRabbitMessage .created (.record (.obj []) "5") "t").itemId
        = Option.none) :=
  ⟨(queue_action_item_itemId_split .deleted (.idOnly "5") "t").1 rfl,
   (queue_action_item_itemId_split .created (.record (.obj []) "5") "t").2
     (Or.inl rfl)⟩

/-- C4: round-trip law — decoding (Go `json.Unmarshal` into
`KafkaMessage`) the wire encoding the Node publisher produces
(`JSON.stringify` of the event envelope) yields the event back, for every
event (every value of the embedded type is well-formed and acyclic). -/
theorem kafka_decode_encode_roundtrip (m : KafkaMessage) :
    bindKafka (encodeKafkaWire m) = .ok m :=
  rfl

/-- C5, counterexample: in the Node API every connect step can fail
(`NodeWorld` `⟨false, false, false⟩`) and the process still serves:
`app.listen` starts the HTTP server before `initializeServices` runs, and
`initializeServices` catches and logs every connect failure. -/
theorem node_connect_failure_still_serving_cex :
    (nodeStart ⟨false, false, false⟩).serving = true ∧
    (nodeStart ⟨false, false, false⟩).producerConnected = false ∧
    (nodeStart ⟨false, false, false⟩).rabbitChannel = false ∧
    (nodeStart ⟨false, false, false⟩).initErrorLogged = true :=
  ⟨rfl, rfl, rfl, rfl⟩

/-- C5, amended: in the Go service a connect failure at the record-store or
queue-broker step is fatal (`log.Fatalf`, one attempt, no retry) and the
process reaches the serving state only when both succeed; its log-broker
connect only constructs clients and cannot fail.  In the Node API the HTTP
listener is serving regardless of connect outcomes. -/
theorem startup_fatality_split (g : GoWorld) (n : NodeWorld) :
    (g.mongoOk = false → goMain g = .fatal "MongoDB") ∧
    (g.mongoOk = true → g.rabbitOk = false → goMain g = .fatal "RabbitMQ") ∧
    (g.mongoOk = true → g.rabbitOk = true → goMain g = .serving) ∧
    (nodeStart n).serving = true := by
  obtain ⟨m, r⟩ := g
  refine ⟨?_, ?_, ?_, rfl⟩ <;> rintro rfl
  · rfl
  · rintro rfl; rfl
  · rintro rfl; rfl

/-- Witness for C5 at concrete worlds: record store down, queue broker
down, both up. -/
theorem startup_fatality_split_witness :
    goMain ⟨false, true⟩ = .fatal "MongoDB" ∧
    goMain ⟨true, false⟩ = .fatal "RabbitMQ" ∧
    goMain ⟨true, true⟩ = .serving ∧
    (nodeStart ⟨true, true, true⟩).serving = true :=
  ⟨(startup_fatality_split ⟨false, true⟩ ⟨true, true, true⟩).1 rfl,
   (startup_fatality_split ⟨true, false⟩ ⟨true, true, true⟩).2.1 rfl rfl,
   (startup_fatality_split ⟨true, true⟩ ⟨true, true, true⟩).2.2.1 rfl rfl,
   (startup_fatality_split ⟨true, true⟩ ⟨true, true, true⟩).2.2.2⟩

/-- C6: each consumer loop (Kafka `item-events`, RabbitMQ `items_queue`,
RabbitMQ `notifications_queue`), fed N well-formed messages, then one
malformed message, then M well-formed messages, dispatches exactly the
N + M well-formed ones to its handler, in order, and skips exactly the one
malformed message; decoding is a total function into `Except`, so a decode
failure is a logged value, never an unhandled fault, and the loop
continues past it. -/
theorem consumer_loop_skips_exactly_malformed
    (kws1 kws2 rws1 rws2 nws1 nws2 : List Wire) (kbad rbad nbad : Wire)
    (hk1 : ∀ w ∈ kws1, (bindKafka w).isOk = true)
    (hkb : (bindKafka kbad).isOk = false)
    (hk2 : ∀ w ∈ kws2, (bindKafka w).isOk = true)
    (hr1 : ∀ w ∈ rws1, (bindRabbit w).isOk = true)
    (hrb : (bindRabbit rbad).isOk = false)
    (hr2 : ∀ w ∈ rws2, (bindRabbit w).isOk = true)
    (hn1 : ∀ w ∈ nws1, (bindNotify w).isOk = true)
    (hnb : (bindNotify nbad).isOk = false)
    (hn2 : ∀ w ∈ nws2, (bindNotify w).isOk = true) :
    ((consumeLoop bindKafka (kws1 ++ kbad :: kws2)).1
        = (consumeLoop bindKafka kws1).1 ++ (consumeLoop bindKafka kws2).1 ∧
      (consumeLoop bindKafka (kws1 ++ kbad :: kws2)).1.length
        = kws1.length + kws2.length ∧
      (consumeLoop bindKafka (kws1 ++ kbad :: kws2)).2 = 1) ∧
    ((consumeLoop bindRabbit (rws1 ++ rbad :: rws2)).1
        = (consumeLoop bindRabbit rws1).1 ++ (consumeLoop bindRabbit rws2).1 ∧
      (consumeLoop bindRabbit (rws1 ++ rbad :: rws2)).1.length
        = rws1.length + rws2.length ∧
      (consumeLoop bindRabbit (rws1 ++ rbad :: rws2)).2 = 1) ∧
    ((consumeLoop bindNotify (nws1 ++ nbad :: nws2)).1
        = (consumeLoop bindNotify nws1).1 ++ (consumeLoop bindNotify nws2).1 ∧
      (consumeLoop bindNotify (nws1 ++ nbad :: nws2)).1.length
        = nws1.length + nws2.length ∧
      (consumeLoop bindNotify (nws1 ++ nbad :: nws2)).2 = 1) := by
  refine ⟨?_, ?_, ?_⟩
  · obtain ⟨hsplit, hskip⟩ := consumeLoop_skip_one bindKafka kbad hkb kws2 hk2 kws1 hk1
    obtain ⟨l1, _⟩ := consumeLoop_all_ok bindKafka kws1 hk1
    obtain ⟨l2, _⟩ := consumeLoop_all_ok bindKafka kws2 hk2
    exact ⟨hsplit, by simp [hsplit, l1, l2], hskip⟩
  · obtain ⟨hsplit, hskip⟩ := consumeLoop_skip_one bindRabbit rbad hrb rws2 hr2 rws1 hr1
    obtain ⟨l1, _⟩ := consumeLoop_all_ok bindRabbit rws1 hr1
    obtain ⟨l2, _⟩ := consumeLoop_all_ok bindRabbit rws2 hr2
    exact ⟨hsplit, by simp [hsplit, l1, l2], hskip⟩
  · obtain ⟨hsplit, hskip⟩ := consumeLoop_skip_one bindNotify nbad hnb nws2 hn2 nws1 hn1
    obtain ⟨l1, _⟩ := consumeLoop_all_ok bindNotify nws1 hn1
    obtain ⟨l2, _⟩ := consumeLoop_all_ok bindNotify nws2 hn2
    exact ⟨hsplit, by simp [hsplit, l1, l2], hskip⟩

/-- Witness for C6: one well-formed message, one malformed, one
well-formed on each of the three channels. -/
theorem consumer_loop_skips_exactly_malformed_witness :
    ((consumeLoop bindKafka
        ([Wire.json (.obj [("event", .str "item_created"), ("timestamp", .str "t")])]
          ++ Wire.garbage "oops" :: [Wire.json .null])).2 = 1) ∧
    ((consumeLoop bindRabbit
        ([Wire.json (.obj [("action", .str "created"), ("item", .obj []),
            ("timestamp", .str "t")])]
          ++ Wire.json (.arr []) :: [Wire.json (.obj [])])).2 = 1) ∧
    ((consumeLoop bindNotify
        ([Wire.json (.obj [("message", .str "hi"), ("recipient", .str "a@b.com"),
            ("timestamp", .str "t")])]
          ++ Wire.json (.obj [("message", .num 3)]) :: [Wire.json .null])).2 = 1) :=
  have h := consumer_loop_skips_exactly_malformed
    [Wire.json (.obj [("event", .str "item_created"), ("timestamp", .str "t")])]
    [Wire.json .null]
    [Wire.json (.obj [("action", .str "created"), ("item", .obj []),
        ("timestamp", .str "t")])]
    [Wire.json (.obj [])]
    [Wire.json (.obj [("message", .str "hi"), ("recipient", .str "a@b.com"),
        ("timestamp", .str "t")])]
    [Wire.json .null]
    (Wire.garbage "oops") (Wire.json (.arr [])) (Wire.json (.obj [("message", .num 3)]))
    (by decide) (by decide) (by decide) (by decide) (by decide) (by decide)
    (by decide) (by decide) (by decide)
  ⟨h.1.2.2, h.2.1.2.2, h.2.2.2.2⟩

/-- C7: `POST /api/notify` with a null channel responds 500 "RabbitMQ not
connected"; with a channel whose enqueue throws, 500 with the thrown
message and nothing enqueued; with a reachable broker it enqueues exactly
the notification and responds success. -/
theorem notify_unavailable_500 (send : Except String Unit)
    (errMsg m r ts : String) :
    ((notifyHandler false send m r ts).1.status = 500 ∧
      (notifyHandler false send m r ts).1.success = false ∧
      (notifyHandler false send m r ts).1.error = some "RabbitMQ not connected" ∧
      (notifyHandler false send m r ts).2 = []) ∧
    ((notifyHandler true (.error errMsg) m r ts).1.status = 500 ∧
      (notifyHandler true (.error errMsg) m r ts).1.success = false ∧
      (notifyHandler true (.error errMsg) m r ts).1.error = some errMsg ∧
      (notifyHandler true (.error errMsg) m r ts).2 = []) ∧
    ((notifyHandler true (.ok ()) m r ts).1.status = 200 ∧
      (notifyHandler true (.ok ()) m r ts).1.success = true ∧
      (notifyHandler true (.ok ()) m r ts).2 = [⟨m, r, ts⟩]) :=
  ⟨⟨rfl, rfl, rfl, rfl⟩, ⟨rfl, rfl, rfl, rfl⟩, ⟨rfl, rfl, rfl⟩⟩

/-- C8: every record-store mutation failure is surfaced as a 4xx/5xx
response with no emission to either broker: POST save error → 400, PUT
store error → 400, PUT missing document → 404, DELETE store error → 500,
DELETE missing document → 404 — all with `Emissions.none`. -/
theorem failed_mutation_no_event (msg reqId now ts : String) (p : ItemPatch)
    (pre found : Option Item) (w : World) :
    ((postItems (.error msg) w ts).1.status = 400 ∧
      (postItems (.error msg) w ts).1.success = false ∧
      (postItems (.error msg) w ts).2 = Emissions.none) ∧
    ((putItem (some msg) pre p now ts w).1.status = 400 ∧
      (putItem (some msg) pre p now ts w).2 = Emissions.none) ∧
    ((putItem Option.none Option.none p now ts w).1.status = 404 ∧
      (putItem Option.none Option.none p now ts w).2 = Emissions.none) ∧
    ((deleteItem (some msg) found reqId w ts).1.status = 500 ∧
      (deleteItem (some msg) found reqId w ts).2 = Emissions.none) ∧
    ((deleteItem Option.none Option.none reqId w ts).1.status = 404 ∧
      (deleteItem Option.none Option.none reqId w ts).2 = Emissions.none) :=
  ⟨⟨rfl, rfl, rfl⟩, ⟨rfl, rfl⟩, ⟨rfl, rfl⟩, ⟨rfl, rfl⟩, ⟨rfl, rfl⟩⟩

/-- C9, counterexample: a `POST /api/events` body that is valid JSON but
not a JSON object (here an array) parses as JSON yet yields a 400, because
`ShouldBindJSON` binds into `map[string]interface{}` — so "only a non-JSON
body yields a 400" is false. -/
theorem send_event_nonobject_json_cex :
    (Wire.json (Json.arr [])).parses = true ∧
    (sendEvent (.json (.arr [])) true true "t").1.status = 400 ∧
    (sendEvent (.json (.arr [])) true true "t").1.success = false :=
  ⟨rfl, rfl, rfl⟩

/-- C9, amended: for every `POST /api/events` body that binds as a JSON
object (or JSON null, which binds to the nil map) the response is 200 with
success:true regardless of whether the Kafka or RabbitMQ emission succeeds
— both emission results are discarded; a body that is not valid JSON or is
valid JSON of a non-object type yields a 400. -/
theorem send_event_response_law (body : Wire) (kOk rOk kOk2 rOk2 : Bool)
    (ts : String) :
    ((bindJsonMap body).isOk = true →
      (sendEvent body kOk rOk ts).1.status = 200 ∧
      (sendEvent body kOk rOk ts).1.success = true) ∧
    ((bindJsonMap body).isOk = false →
      (sendEvent body kOk rOk ts).1.status = 400 ∧
      (sendEvent body kOk rOk ts).1.success = false) ∧
    (sendEvent body kOk rOk ts).1 = (sendEvent body kOk2 rOk2 ts).1 := by
  refine ⟨?_, ?_, ?_⟩
  · intro h
    cases hb : bindJsonMap body with
    | error e => rw [hb] at h; simp [Except.isOk, Except.toBool] at h
    | ok j => simp [sendEvent, hb]
  · intro h
    cases hb : bindJsonMap body with
    | ok j => rw [hb] at h; simp [Except.isOk, Except.toBool] at h
    | error e => simp [sendEvent, hb]
  · cases hb : bindJsonMap body <;> simp only [sendEvent, hb]

/-- Witness for C9 at concrete inputs: an empty JSON object body with a
failing RabbitMQ emission still answers 200; a non-JSON body answers 400. -/
theorem send_event_response_law_witness :
    ((sendEvent (.json (.obj [])) true false "t").1.status = 200 ∧
      (sendEvent (.json (.obj [])) true false "t").1.success = true) ∧
    ((sendEvent (.garbage "nope") true true "t").1.status = 400 ∧
      (sendEvent (.garbage "nope") true true "t").1.success = false) :=
  ⟨(send_event_response_law (.json (.obj [])) true false true false "t").1
      (by decide),
   (send_event_response_law (.garbage "nope") true true true true "t").2.1
      (by decide)⟩

/-- C10: a successful `PUT /api/items/:id` responds 200 with the updated
document, whose `updatedAt` is the update time (even if the body supplied
one), whose body-supplied fields carry the supplied values, and whose
absent fields — `createdAt` included — keep their previous values
(`Option.getD` folds both cases: supplied ↦ supplied value, absent ↦ old
value); the document id is unchanged. -/
theorem put_update_field_semantics (old : Item) (p : ItemPatch)
    (now ts : String) (w : World) :
    (putItem Option.none (some old) p now ts w).1.status = 200 ∧
    (putItem Option.none (some old) p now ts w).1.success = true ∧
    (putItem Option.none (some old) p now ts w).1.data
        = some (applyUpdate old p now).toJson ∧
    (applyUpdate old p now).updatedAt = now ∧
    (applyUpdate old p now).name = p.name.getD old.name ∧
    (applyUpdate old p now).description = p.description.getD old.description ∧
    (applyUpdate old p now).price = p.price.getD old.price ∧
    (applyUpdate old p now).category = p.category.getD old.category ∧
    (applyUpdate old p now).createdAt = p.createdAt.getD old.createdAt ∧
    (applyUpdate old p now).id = old.id :=
  ⟨rfl, rfl, rfl, rfl, rfl, rfl, rfl, rfl, rfl, rfl⟩
